import Mathlib

/-!
Verification of the credit-metered usage ledger of the template-site backend.

The definitions below are a shallow embedding of the JavaScript source:

* `Billing.User` and its methods mirror the mongoose `userSchema`
  (`credits`, `totalCreditsUsed`, `totalCreditsPurchased`, `deductCredits`,
  `addCredits`).
* `Billing.AI_PROVIDERS`, `Billing.getProviderForModel` and
  `Billing.calculateCredits` mirror `src/config/ai.js`; JavaScript number
  arithmetic is modelled exactly over `ℚ`.
* `Billing.Transaction` and its methods mirror the mongoose
  `transactionSchema` (`markCompleted`, `markFailed`, `processRefund`).
* `Billing.handlePaymentSuccess` mirrors the Stripe webhook handler in
  `src/routes/payments.js`, `Billing.aiGenerate` the `POST /api/ai/generate`
  route in `src/routes/ai.js` (the external provider call is an oracle
  argument), and `Billing.refundRoute` the admin refund route in
  `src/routes/admin.js`.

Mongoose `Date.now()` timestamps are threaded through as explicit `now : Nat`
arguments; database persistence is modelled by returning the updated
documents.
-/

namespace Billing

/-- Credit-bearing fields of a user document (`userSchema` in the User model
file): the balance `credits` and the lifetime counters `totalCreditsUsed`
and `totalCreditsPurchased`. -/
structure User where
  credits : Int
  totalCreditsUsed : Int
  totalCreditsPurchased : Int
  deriving DecidableEq, Repr

/-- Schema default of the `credits` field:
`parseInt(process.env.DEFAULT_CREDITS) || 10`, taken at its fallback 10. -/
def DEFAULT_CREDITS : Int := 10

/-- A freshly registered user: the register route constructs the document
with only identity fields, so the credit fields take their schema defaults
(`credits = DEFAULT_CREDITS`, both lifetime counters 0). -/
def freshUser : User :=
  { credits := DEFAULT_CREDITS, totalCreditsUsed := 0, totalCreditsPurchased := 0 }

/-- Method `userSchema.methods.deductCredits`: throws
`Créditos insuficientes` when `this.credits < amount` (modelled as `none`,
leaving the document untouched), otherwise decrements `credits` and
increments `totalCreditsUsed`. -/
def User.deductCredits (u : User) (amount : Int) : Option User :=
  if u.credits < amount then none
  else some { u with
    credits := u.credits - amount,
    totalCreditsUsed := u.totalCreditsUsed + amount }

/-- Method `userSchema.methods.addCredits`: unconditionally increments
`credits` and `totalCreditsPurchased`. -/
def User.addCredits (u : User) (amount : Int) : User :=
  { u with
    credits := u.credits + amount,
    totalCreditsPurchased := u.totalCreditsPurchased + amount }

/-- Per-model pricing entry of `AI_PROVIDERS` in `src/config/ai.js`. -/
structure ModelConfig where
  costPerToken : ℚ
  maxTokens : Nat
  deriving DecidableEq, Repr

/-- The provider catalog of `src/config/ai.js`: provider name paired with its
model table (model id, `costPerToken`, `maxTokens`). -/
def AI_PROVIDERS : List (String × List (String × ModelConfig)) :=
  [ ( "openai",
      [ ( "gpt-4", { costPerToken := 3 / 100000, maxTokens := 8192 }),
        ( "gpt-3.5-turbo", { costPerToken := 2 / 1000000, maxTokens := 4096 }) ]),
    ( "anthropic",
      [ ( "claude-3-sonnet", { costPerToken := 15 / 1000000, maxTokens := 4096 }) ]) ]

/-- Function `getProviderForModel` (`src/config/ai.js`) restricted to exact
own-key lookup: the first provider whose model table has `model` as an own
key, else `null`. The JavaScript truthiness test `config.models[model]` is
a prototype-chain lookup and also passes at names every object literal
inherits from `Object.prototype`; that behaviour is modelled faithfully by
`getProviderForModelJS` below, and the two agree on every name that is not
an `Object.prototype` property. -/
def getProviderForModel (model : String) : Option String :=
  (AI_PROVIDERS.find? (fun p => (p.2.find? (fun m => m.1 == model)).isSome)).map
    (fun p => p.1)

/-- Lookup `AI_PROVIDERS[provider].models[model]` as performed by
`calculateCredits` after `getProviderForModel` succeeds, restricted to
exact own keys (see `jsModelsLookup` for the prototype-chain behaviour). -/
def lookupModel (model : String) : Option ModelConfig :=
  match getProviderForModel model with
  | none => none
  | some provider =>
    match AI_PROVIDERS.find? (fun p => p.1 == provider) with
    | none => none
    | some p => (p.2.find? (fun m => m.1 == model)).map (fun m => m.2)

/-- Function `calculateCredits` (`src/config/ai.js`) under exact own-key
lookup: returns 1 when the model has no provider, otherwise
`Math.max(1, Math.ceil(tokens * costPerToken * 100))`, arithmetic taken
exactly over `ℚ`. `calculateCreditsJS` below adds the prototype-chain case
of the JavaScript lookup; on catalogued names and on names that are not
`Object.prototype` properties the two agree. -/
def calculateCredits (tokens : Nat) (model : String) : Int :=
  match lookupModel model with
  | none => 1
  | some cfg =>
    let usdCost : ℚ := (tokens : ℚ) * cfg.costPerToken
    max 1 (Int.ceil (usdCost * 100))

/-- Function `isModelAvailable` (`src/config/ai.js`) under exact own-key
lookup: `getProviderForModel(model) !== null`. Equivalently, whether
`model` is an own key of some provider's catalog. -/
def isModelAvailable (model : String) : Bool :=
  (getProviderForModel model).isSome

/-- Own property names of `Object.prototype` (the `__proto__` accessor
included): names at which a property lookup on any JavaScript object
literal yields an inherited function or object, hence a truthy value. -/
def objectPrototypeProps : List String :=
  [ "constructor", "hasOwnProperty", "isPrototypeOf", "propertyIsEnumerable",
    "toLocaleString", "toString", "valueOf", "__proto__",
    "__defineGetter__", "__defineSetter__", "__lookupGetter__",
    "__lookupSetter__" ]

/-- Result of the JavaScript property lookup `models[model]` on a catalog
object literal: an own catalogued entry, a truthy property inherited from
`Object.prototype` (not a model configuration), or `undefined`. -/
inductive JsLookup
  | found (cfg : ModelConfig)
  | inherited
  | absent
  deriving DecidableEq, Repr

/-- Truthiness of the lookup result, as tested by
`if (config.models[model])`: own entries and inherited properties are
truthy, `undefined` is falsy. -/
def JsLookup.truthy : JsLookup → Bool
  | JsLookup.found _ => true
  | JsLookup.inherited => true
  | JsLookup.absent => false

/-- The JavaScript lookup `models[model]` with its prototype chain: an own
key wins, otherwise a name inherited from `Object.prototype` yields the
inherited property, otherwise `undefined`. -/
def jsModelsLookup (models : List (String × ModelConfig)) (model : String) : JsLookup :=
  match models.find? (fun m => m.1 == model) with
  | some m => JsLookup.found m.2
  | none =>
    if objectPrototypeProps.contains model then JsLookup.inherited
    else JsLookup.absent

/-- Function `getProviderForModel` (`src/config/ai.js`) with the faithful
prototype-chain lookup: the first provider for which `config.models[model]`
is truthy; at `Object.prototype` names this returns the first provider
(`openai`) although the name is in no catalog. -/
def getProviderForModelJS (model : String) : Option String :=
  (AI_PROVIDERS.find? (fun p => (jsModelsLookup p.2 model).truthy)).map
    (fun p => p.1)

/-- Function `calculateCredits` (`src/config/ai.js`) with the faithful
prototype-chain lookup. When the model name is inherited from
`Object.prototype`, `modelConfig` is the inherited property, its
`costPerToken` is `undefined`, `tokens * undefined` is `NaN`, and
`Math.max(1, Math.ceil(NaN * 100))` is `NaN`: the function returns `NaN`,
modelled as `none`. (The inner provider-not-found branch is unreachable,
since the provider name comes from the catalog itself.) -/
def calculateCreditsJS (tokens : Nat) (model : String) : Option Int :=
  match getProviderForModelJS model with
  | none => some 1
  | some provider =>
    match AI_PROVIDERS.find? (fun p => p.1 == provider) with
    | none => none
    | some p =>
      match jsModelsLookup p.2 model with
      | JsLookup.found cfg =>
        some (max 1 (Int.ceil ((tokens : ℚ) * cfg.costPerToken * 100)))
      | JsLookup.inherited => none
      | JsLookup.absent => none

/-- Values of the `status` field of `transactionSchema`. -/
inductive TxStatus
  | pending
  | completed
  | failed
  | cancelled
  | refunded
  deriving DecidableEq, Repr

/-- Values of the `type` field of `transactionSchema`. -/
inductive TxType
  | credit_purchase
  | credit_usage
  | subscription
  | refund
  | bonus
  deriving DecidableEq, Repr

/-- The embedded `refund` subdocument of `transactionSchema`. -/
structure RefundInfo where
  isRefunded : Bool
  refundAmount : ℚ
  refundDate : Option Nat
  refundReason : Option String
  refundTransactionId : Option String
  deriving DecidableEq, Repr

/-- Schema defaults of the `refund` subdocument. -/
def defaultRefundInfo : RefundInfo :=
  { isRefunded := false, refundAmount := 0, refundDate := none,
    refundReason := none, refundTransactionId := none }

/-- The fields of a transaction document the ledger logic reads or writes:
`type`, `status`, monetary `amount`, `credits`, the `refund` subdocument,
`paymentProvider.paymentIntentId`, and the completion and failure stamps. -/
structure Transaction where
  type : TxType
  status : TxStatus
  amount : ℚ
  credits : Int
  refund : RefundInfo
  paymentIntentId : Option String
  completedAt : Option Nat
  failedAt : Option Nat
  failureReason : Option String
  deriving DecidableEq, Repr

/-- Method `transactionSchema.methods.markCompleted`: sets `status` to
`completed` and stamps `completedAt`. -/
def Transaction.markCompleted (t : Transaction) (now : Nat) : Transaction :=
  { t with status := TxStatus.completed, completedAt := some now }

/-- Method `transactionSchema.methods.markFailed`: sets `status` to `failed`,
stamps `failedAt` and records the reason. -/
def Transaction.markFailed (t : Transaction) (reason : String) (now : Nat) : Transaction :=
  { t with
    status := TxStatus.failed
    failedAt := some now
    failureReason := some reason }

/-- Method `transactionSchema.methods.processRefund`: sets the refund flag,
records `amount || this.amount` (JavaScript treats 0 as falsy), the date,
reason and refund transaction id, and sets `status` to `refunded`. -/
def Transaction.processRefund (t : Transaction) (amount : ℚ) (reason rid : String)
    (now : Nat) : Transaction :=
  { t with
    refund :=
      { isRefunded := true,
        refundAmount := if amount = 0 then t.amount else amount,
        refundDate := some now,
        refundReason := some reason,
        refundTransactionId := some rid },
    status := TxStatus.refunded }

/-- State seen by the webhook settlement handler: the transaction found by
`paymentProvider.paymentIntentId` (or `none`) and the user found by
`transaction.user` (or `none`). -/
structure SettleState where
  tx : Option Transaction
  user : Option User
  deriving DecidableEq, Repr

/-- Function `handlePaymentSuccess` (`src/routes/payments.js`): if no
transaction matches the intent id, or the matched one is already
`completed`, return with no effect; otherwise, when the owning user exists,
add the transaction's credits to the user and mark the transaction
completed. -/
def handlePaymentSuccess (s : SettleState) (now : Nat) : SettleState :=
  match s.tx with
  | none => s
  | some t =>
    if t.status = TxStatus.completed then s
    else
      match s.user with
      | none => s
      | some u =>
        { tx := some (t.markCompleted now), user := some (u.addCredits t.credits) }

/-- At-least-once delivery of the `payment_intent.succeeded` webhook: one
call of `handlePaymentSuccess` per delivery time in the list. -/
def deliverSuccessN (s : SettleState) (times : List Nat) : SettleState :=
  times.foldl (fun st now => handlePaymentSuccess st now) s

/-- Outcome of the external `callRealAI` call, as seen by the route: either
the provider's total token usage, or a thrown error message. -/
inductive ProviderOutcome
  | success (tokensTotal : Nat)
  | failure (msg : String)
  deriving DecidableEq, Repr

/-- HTTP-level outcome of `POST /api/ai/generate`. -/
inductive GenStatus
  | ok
  | modelUnavailable
  | insufficientCredits
  | serverError
  deriving DecidableEq, Repr

/-- Status of the `AILog` document the route creates and updates. -/
inductive LogStatus
  | processing
  | completed
  | failed
  deriving DecidableEq, Repr

/-- Observable effects of one `POST /api/ai/generate` request: response
status, how many times the external provider was invoked, the resulting user
document, the transaction documents the request created, and the final
status of its `AILog`. -/
structure GenerateResult where
  status : GenStatus
  providerCalls : Nat
  user : User
  createdTxs : List Transaction
  logStatus : Option LogStatus
  deriving DecidableEq, Repr

/-- Estimate `Math.ceil(prompt.length / 4) + 500` from the generate route. -/
def estimatedTokens (promptLen : Nat) : Nat :=
  (promptLen + 3) / 4 + 500

/-- Route `POST /api/ai/generate` (`src/routes/ai.js`) with the external
provider call abstracted as the `outcome` oracle: model availability check,
credit admission check against the estimate, provider invocation, actual
cost deduction via `deductCredits`, and creation of the completed
`credit_usage` transaction; any thrown error (provider failure, or
insufficient credits at settlement) reaches the catch block, which marks the
`AILog` failed and answers 500 without creating a transaction. -/
def aiGenerate (u : User) (promptLen : Nat) (model : String)
    (outcome : ProviderOutcome) (now : Nat) : GenerateResult :=
  if isModelAvailable model = false then
    { status := GenStatus.modelUnavailable
      providerCalls := 0
      user := u
      createdTxs := []
      logStatus := none }
  else
    let requiredCredits := calculateCredits (estimatedTokens promptLen) model
    if u.credits < requiredCredits then
      { status := GenStatus.insufficientCredits
        providerCalls := 0
        user := u
        createdTxs := []
        logStatus := none }
    else
      match outcome with
      | ProviderOutcome.failure _ =>
        { status := GenStatus.serverError
          providerCalls := 1
          user := u
          createdTxs := []
          logStatus := some LogStatus.failed }
      | ProviderOutcome.success tokensTotal =>
        let actualCredits := calculateCredits tokensTotal model
        match u.deductCredits actualCredits with
        | none =>
          { status := GenStatus.serverError
            providerCalls := 1
            user := u
            createdTxs := []
            logStatus := some LogStatus.failed }
        | some u2 =>
          { status := GenStatus.ok
            providerCalls := 1
            user := u2
            createdTxs :=
              [ { type := TxType.credit_usage
                  status := TxStatus.completed
                  amount := 0
                  credits := actualCredits
                  refund := defaultRefundInfo
                  paymentIntentId := none
                  completedAt := some now
                  failedAt := none
                  failureReason := none } ]
            logStatus := some LogStatus.completed }

/-- Error responses of the admin refund route. -/
inductive RefundError
  | validationError
  | notFound
  | notCompleted
  | alreadyRefunded
  deriving DecidableEq, Repr

/-- Route `PUT /api/admin/transactions/:id/refund` (`src/routes/admin.js`):
validator `body('amount').optional().isFloat({ min: 0 })`, the 404 lookup,
the `status !== 'completed'` rejection, the `refund.isRefunded` rejection,
then `processRefund(amount || transaction.amount, ...)` followed by the
guarded credit clawback
`if (transaction.credits > 0 && user.credits >= transaction.credits)`. -/
def refundRoute (tx : Option Transaction) (u : User) (amount : Option ℚ)
    (reason rid : String) (now : Nat) : Except RefundError (Transaction × User) :=
  if amount.any (fun a => decide (a < 0)) then
    Except.error RefundError.validationError
  else
    match tx with
    | none => Except.error RefundError.notFound
    | some t =>
      if t.status ≠ TxStatus.completed then
        Except.error RefundError.notCompleted
      else if t.refund.isRefunded then
        Except.error RefundError.alreadyRefunded
      else
        let refundAmount : ℚ :=
          match amount with
          | some a => if a = 0 then t.amount else a
          | none => t.amount
        let t2 := t.processRefund refundAmount reason rid now
        let u2 :=
          if 0 < t.credits ∧ t.credits ≤ u.credits then
            { u with credits := u.credits - t.credits }
          else u
        Except.ok (t2, u2)

/-- One balance-affecting operation on a user document, as the routes
perform them: `debit` is `deductCredits` (a thrown exception leaves the
document unchanged), `credit` is `addCredits`, and `clawback` is the admin
refund route's guarded direct decrement of `credits`. -/
inductive LedgerOp
  | debit (amount : Int)
  | credit (amount : Int)
  | clawback (txCredits : Int)
  deriving DecidableEq, Repr

/-- Apply one ledger operation to a user document. -/
def applyOp (u : User) : LedgerOp → User
  | LedgerOp.debit a =>
    match u.deductCredits a with
    | none => u
    | some u2 => u2
  | LedgerOp.credit a => u.addCredits a
  | LedgerOp.clawback c =>
    if 0 < c ∧ c ≤ u.credits then { u with credits := u.credits - c } else u

/-- The requested amount of an operation; the clawback's guard makes it
self-protecting, so it carries no requirement and reports 0. -/
def opAmount : LedgerOp → Int
  | LedgerOp.debit a => a
  | LedgerOp.credit a => a
  | LedgerOp.clawback _ => 0

/-- Whether the operation is one of the two Account-Manager methods
(`deductCredits` / `addCredits`), as opposed to the admin clawback's direct
field write. -/
def isAccountManagerOp : LedgerOp → Bool
  | LedgerOp.debit _ => true
  | LedgerOp.credit _ => true
  | LedgerOp.clawback _ => false

/-- Run a sequence of ledger operations left to right. -/
def runOps (u : User) (ops : List LedgerOp) : User :=
  ops.foldl applyOp u

/-- The welcome-bonus transaction the register route creates
(`status: 'completed'`, `amount: 0`,
`credits: parseInt(process.env.DEFAULT_CREDITS) || 10`); the route never
calls `addCredits`, the fresh user's balance comes from the schema
default. -/
def welcomeTransaction (now : Nat) : Transaction :=
  { type := TxType.bonus
    status := TxStatus.completed
    amount := 0
    credits := DEFAULT_CREDITS
    refund := defaultRefundInfo
    paymentIntentId := none
    completedAt := some now
    failedAt := none
    failureReason := none }

/-- Test fixture: a user with zero balance and zero lifetime counters. -/
def user0 : User :=
  { credits := 0, totalCreditsUsed := 0, totalCreditsPurchased := 0 }

/-- Test fixture: a user holding 100 credits, all purchased. -/
def user100 : User :=
  { credits := 100, totalCreditsUsed := 0, totalCreditsPurchased := 100 }

/-- Test fixture: a completed credit purchase (10 currency units, 100
credits), not yet refunded. -/
def completedTx : Transaction :=
  { type := TxType.credit_purchase
    status := TxStatus.completed
    amount := 10
    credits := 100
    refund := defaultRefundInfo
    paymentIntentId := some "pi_1"
    completedAt := some 0
    failedAt := none
    failureReason := none }

/-- Test fixture: a pending credit purchase of 600 credits awaiting its
payment webhook. -/
def pendingTx : Transaction :=
  { type := TxType.credit_purchase
    status := TxStatus.pending
    amount := 40
    credits := 600
    refund := defaultRefundInfo
    paymentIntentId := some "pi_2"
    completedAt := none
    failedAt := none
    failureReason := none }

/-- Test fixture: a credit purchase whose payment already failed
(`status: 'failed'`). -/
def failedPurchaseTx : Transaction :=
  { type := TxType.credit_purchase
    status := TxStatus.failed
    amount := 40
    credits := 600
    refund := defaultRefundInfo
    paymentIntentId := some "pi_3"
    completedAt := none
    failedAt := some 4
    failureReason := some "card declined"}

/-- Ceiling commutes with clamping at 1, the bridge between the source's
`Math.max(1, Math.ceil(x))` and the specified `ceil(max(1, x))`. -/
theorem ceil_max_one (x : ℚ) : Int.ceil (max 1 x) = max 1 (Int.ceil x) := by
  have h1 : Int.ceil (max (1 : ℚ) x) = max (Int.ceil (1 : ℚ)) (Int.ceil x) :=
    Int.ceil_mono.map_max
  rw [h1, Int.ceil_one]

/-- Catalog lookup of the gpt-4 pricing entry evaluates. -/
theorem lookupModel_gpt4 :
    lookupModel "gpt-4" = some { costPerToken := 3 / 100000, maxTokens := 8192 } := by
  rfl

/-- Concrete pricing: 505 tokens on gpt-4 cost 1.515 cents, hence 2 credits. -/
theorem calculateCredits_505_gpt4 : calculateCredits 505 "gpt-4" = 2 := by
  simp only [calculateCredits, lookupModel_gpt4]
  rw [show (Int.ceil (((505 : ℕ) : ℚ) * (3 / 100000) * 100)) = 2 by
    rw [Int.ceil_eq_iff]; norm_num]
  norm_num

/-- Concrete pricing: 500 tokens on gpt-4 cost 1.5 cents, hence 2 credits. -/
theorem calculateCredits_500_gpt4 : calculateCredits 500 "gpt-4" = 2 := by
  simp only [calculateCredits, lookupModel_gpt4]
  rw [show (Int.ceil (((500 : ℕ) : ℚ) * (3 / 100000) * 100)) = 2 by
    rw [Int.ceil_eq_iff]; norm_num]
  norm_num

/-- The estimate for an empty prompt is 500 tokens, so 2 credits on gpt-4. -/
theorem calculateCredits_est0_gpt4 :
    calculateCredits (estimatedTokens 0) "gpt-4" = 2 := by
  rw [show estimatedTokens 0 = 500 from rfl]
  exact calculateCredits_500_gpt4

/-- The estimate for a 20-character prompt is 505 tokens, so 2 credits on
gpt-4. -/
theorem calculateCredits_est20_gpt4 :
    calculateCredits (estimatedTokens 20) "gpt-4" = 2 := by
  rw [show estimatedTokens 20 = 505 from rfl]
  exact calculateCredits_505_gpt4

/-- Fixture fact: `user0` cannot afford the empty-prompt estimate on
gpt-4. -/
theorem user0_lt_required :
    user0.credits < calculateCredits (estimatedTokens 0) "gpt-4" := by
  rw [calculateCredits_est0_gpt4]; decide

/-- Fixture fact: `user100` can afford the 20-character-prompt estimate on
gpt-4. -/
theorem user100_not_lt_required :
    ¬ user100.credits < calculateCredits (estimatedTokens 20) "gpt-4" := by
  rw [calculateCredits_est20_gpt4]; decide

/-- Each ledger operation with a nonnegative requested amount preserves a
nonnegative balance. -/
theorem applyOp_credits_nonneg (u : User) (op : LedgerOp)
    (ha : 0 ≤ opAmount op) (h : 0 ≤ u.credits) : 0 ≤ (applyOp u op).credits := by
  cases op with
  | debit a =>
    by_cases hlt : u.credits < a
    · simpa [applyOp, User.deductCredits, hlt] using h
    · simp [applyOp, User.deductCredits, hlt]
      omega
  | credit a =>
    simp only [applyOp, User.addCredits]
    exact add_nonneg h ha
  | clawback c =>
    by_cases hg : 0 < c ∧ c ≤ u.credits
    · simp [applyOp, hg]
    · simp [applyOp, hg]
      exact h

/-- A run of ledger operations with nonnegative requested amounts keeps the
balance nonnegative. -/
theorem runOps_credits_nonneg (ops : List LedgerOp) (u : User)
    (h : 0 ≤ u.credits) (hops : ∀ op ∈ ops, 0 ≤ opAmount op) :
    0 ≤ (runOps u ops).credits := by
  induction ops generalizing u with
  | nil => exact h
  | cons op rest ih =>
    have h1 : 0 ≤ (applyOp u op).credits :=
      applyOp_credits_nonneg u op (hops op (by simp)) h
    exact ih (applyOp u op) h1 (fun o ho => hops o (by simp [ho]))

/-- The two Account-Manager operations preserve the quantity
`credits - totalCreditsPurchased + totalCreditsUsed`. -/
theorem applyOp_am_invariant (u : User) (op : LedgerOp)
    (hop : isAccountManagerOp op = true) :
    (applyOp u op).credits - (applyOp u op).totalCreditsPurchased
        + (applyOp u op).totalCreditsUsed =
      u.credits - u.totalCreditsPurchased + u.totalCreditsUsed := by
  cases op with
  | debit a =>
    by_cases hlt : u.credits < a
    · simp [applyOp, User.deductCredits, hlt]
    · simp [applyOp, User.deductCredits, hlt]
      ring
  | credit a =>
    simp only [applyOp, User.addCredits]
    ring
  | clawback c => simp [isAccountManagerOp] at hop

/-- A run of Account-Manager operations preserves
`credits - totalCreditsPurchased + totalCreditsUsed`. -/
theorem runOps_am_invariant (ops : List LedgerOp) (u : User)
    (h : ∀ op ∈ ops, isAccountManagerOp op = true) :
    (runOps u ops).credits - (runOps u ops).totalCreditsPurchased
        + (runOps u ops).totalCreditsUsed =
      u.credits - u.totalCreditsPurchased + u.totalCreditsUsed := by
  induction ops generalizing u with
  | nil => rfl
  | cons op rest ih =>
    calc (runOps (applyOp u op) rest).credits
          - (runOps (applyOp u op) rest).totalCreditsPurchased
          + (runOps (applyOp u op) rest).totalCreditsUsed
        = (applyOp u op).credits - (applyOp u op).totalCreditsPurchased
            + (applyOp u op).totalCreditsUsed :=
          ih (applyOp u op) (fun o ho => h o (by simp [ho]))
      _ = u.credits - u.totalCreditsPurchased + u.totalCreditsUsed :=
          applyOp_am_invariant u op (h op (by simp))

/-- The success handler leaves any state whose transaction is already
completed untouched. -/
theorem handlePaymentSuccess_noop_completed (s : SettleState) (t : Transaction)
    (m : Nat) (h : s.tx = some t) (hc : t.status = TxStatus.completed) :
    handlePaymentSuccess s m = s := by
  simp [handlePaymentSuccess, h, hc]

/-- Redelivering the success webhook any number of times to a state whose
transaction is already completed changes nothing. -/
theorem deliverSuccessN_noop_completed (times : List Nat) (s : SettleState)
    (t : Transaction) (h : s.tx = some t) (hc : t.status = TxStatus.completed) :
    deliverSuccessN s times = s := by
  induction times with
  | nil => rfl
  | cons m rest ih =>
    show deliverSuccessN (handlePaymentSuccess s m) rest = s
    rw [handlePaymentSuccess_noop_completed s t m h hc]
    exact ih

/-- C1: for every account and every sequence of debit, credit and
refund-clawback operations with nonnegative requested amounts, the balance
stays nonnegative after every prefix of the sequence, and a debit whose
amount exceeds the current balance is rejected leaving the account
unchanged. -/
theorem C1_balance_nonneg (u : User) (ops : List LedgerOp)
    (h0 : 0 ≤ u.credits) (hops : ∀ op ∈ ops, 0 ≤ opAmount op) :
    (∀ pre post, ops = pre ++ post → 0 ≤ (runOps u pre).credits) ∧
    (∀ a, u.credits < a → applyOp u (LedgerOp.debit a) = u) := by
  constructor
  · intro pre post hsplit
    refine runOps_credits_nonneg pre u h0 (fun op ho => hops op ?_)
    rw [hsplit]
    exact List.mem_append_left post ho
  · intro a ha
    simp [applyOp, User.deductCredits, ha]

/-- C1 witness: a concrete run from the fresh account stays nonnegative. -/
theorem C1_balance_nonneg_witness :
    0 ≤ (runOps freshUser
      [LedgerOp.debit 3, LedgerOp.credit 5, LedgerOp.clawback 2,
       LedgerOp.debit 100]).credits :=
  (C1_balance_nonneg freshUser
      [LedgerOp.debit 3, LedgerOp.credit 5, LedgerOp.clawback 2,
       LedgerOp.debit 100] (by decide) (by decide)).1
    [LedgerOp.debit 3, LedgerOp.credit 5, LedgerOp.clawback 2,
     LedgerOp.debit 100] [] (by simp)

/-- C2 counterexample: the freshly registered account holds the welcome
bonus in `credits` through the schema default, while the register route
records the bonus transaction without calling `addCredits`; so
`totalCreditsPurchased - totalCreditsUsed` is 0, not the balance 10. -/
theorem C2_fresh_account_counterexample :
    (welcomeTransaction 0).status = TxStatus.completed ∧
    (welcomeTransaction 0).credits = DEFAULT_CREDITS ∧
    ¬ (freshUser.totalCreditsPurchased - freshUser.totalCreditsUsed
        = freshUser.credits) := by
  decide

/-- C2 amended: along any run of Account-Manager operations
(`deductCredits` / `addCredits`) from a freshly registered account,
`totalCreditsPurchased - totalCreditsUsed` equals the balance minus the
welcome default, not the balance itself. -/
theorem C2_ledger_offset (ops : List LedgerOp)
    (h : ∀ op ∈ ops, isAccountManagerOp op = true) :
    (runOps freshUser ops).totalCreditsPurchased
        - (runOps freshUser ops).totalCreditsUsed =
      (runOps freshUser ops).credits - DEFAULT_CREDITS := by
  have inv := runOps_am_invariant ops freshUser h
  simp only [freshUser, DEFAULT_CREDITS] at inv ⊢
  omega

/-- C2 witness: the offset identity at a concrete purchase-then-usage run. -/
theorem C2_ledger_offset_witness :
    (runOps freshUser [LedgerOp.credit 600, LedgerOp.debit 2]).totalCreditsPurchased
        - (runOps freshUser [LedgerOp.credit 600, LedgerOp.debit 2]).totalCreditsUsed =
      (runOps freshUser [LedgerOp.credit 600, LedgerOp.debit 2]).credits
        - DEFAULT_CREDITS :=
  C2_ledger_offset [LedgerOp.credit 600, LedgerOp.debit 2] (by decide)

/-- C3 counterexample: the success handler only treats a transaction with
status `completed` as already handled; a settlement event for a non-pending
but `failed` transaction is not a no-op — it credits the account and
completes the transaction. -/
theorem C3_failed_tx_counterexample :
    failedPurchaseTx.status ≠ TxStatus.pending ∧
    (handlePaymentSuccess
        { tx := some failedPurchaseTx, user := some user0 } 7).user =
      some (user0.addCredits 600) ∧
    user0.addCredits 600 ≠ user0 := by
  decide

/-- C3 amended: delivering the success webhook N >= 1 times for a pending
purchase transaction credits the account by the transaction credits exactly
once and completes the transaction; a settlement event whose transaction is
not found, or is already completed, is a no-op. -/
theorem C3_webhook_idempotent (t : Transaction) (u : User) (now : Nat)
    (rest : List Nat) (hp : t.status = TxStatus.pending) :
    deliverSuccessN { tx := some t, user := some u } (now :: rest) =
      { tx := some (t.markCompleted now), user := some (u.addCredits t.credits) } ∧
    (∀ (s : SettleState) (m : Nat), s.tx = none → handlePaymentSuccess s m = s) ∧
    (∀ (s : SettleState) (t2 : Transaction) (m : Nat),
      s.tx = some t2 → t2.status = TxStatus.completed →
        handlePaymentSuccess s m = s) := by
  refine ⟨?_, ?_, ?_⟩
  · have step1 : handlePaymentSuccess { tx := some t, user := some u } now =
        { tx := some (t.markCompleted now), user := some (u.addCredits t.credits) } := by
      simp [handlePaymentSuccess, hp]
    calc deliverSuccessN { tx := some t, user := some u } (now :: rest)
        = deliverSuccessN
            { tx := some (t.markCompleted now),
              user := some (u.addCredits t.credits) } rest := by
          show deliverSuccessN
              (handlePaymentSuccess { tx := some t, user := some u } now) rest = _
          rw [step1]
      _ = { tx := some (t.markCompleted now),
            user := some (u.addCredits t.credits) } :=
          deliverSuccessN_noop_completed rest _ (t.markCompleted now) rfl rfl
  · intro s m hnone
    simp [handlePaymentSuccess, hnone]
  · intro s t2 m hsome hc
    exact handlePaymentSuccess_noop_completed s t2 m hsome hc

/-- C3 witness: three deliveries of the success webhook for a concrete
pending purchase credit the account exactly once. -/
theorem C3_webhook_idempotent_witness :
    deliverSuccessN { tx := some pendingTx, user := some user0 } (1 :: [2, 3]) =
      { tx := some (pendingTx.markCompleted 1),
        user := some (user0.addCredits pendingTx.credits) } :=
  (C3_webhook_idempotent pendingTx user0 1 [2, 3] rfl).1

/-- C4: `deductCredits` fails exactly when the amount exceeds the balance
(returning the account unchanged, all-or-nothing), and otherwise decrements
`credits` and increments `totalCreditsUsed` by the amount, leaving
`totalCreditsPurchased` untouched. -/
theorem C4_deductCredits_spec (u : User) (amount : Int) :
    (u.deductCredits amount = none ↔ u.credits < amount) ∧
    (amount ≤ u.credits →
      u.deductCredits amount =
        some { credits := u.credits - amount
               totalCreditsUsed := u.totalCreditsUsed + amount
               totalCreditsPurchased := u.totalCreditsPurchased }) := by
  constructor
  · constructor
    · intro h
      by_contra hlt
      simp [User.deductCredits, hlt] at h
    · intro h
      simp [User.deductCredits, h]
  · intro h
    simp [User.deductCredits, not_lt.mpr h]

/-- C4 witness: deducting 30 from a 100-credit account. -/
theorem C4_deductCredits_spec_witness :
    user100.deductCredits 30 =
      some { credits := 70, totalCreditsUsed := 30, totalCreditsPurchased := 100 } :=
  ((C4_deductCredits_spec user100 30).2 (by decide)).trans (by decide)

/-- C5: a generate request on an available model whose estimated cost
exceeds the current balance is answered 402 before the provider is invoked:
zero provider calls, no transaction, no AI log, and the account unchanged. -/
theorem C5_admission_check (u : User) (promptLen : Nat) (model : String)
    (outcome : ProviderOutcome) (now : Nat)
    (hm : isModelAvailable model = true)
    (h : u.credits < calculateCredits (estimatedTokens promptLen) model) :
    aiGenerate u promptLen model outcome now =
      { status := GenStatus.insufficientCredits
        providerCalls := 0
        user := u
        createdTxs := []
        logStatus := none } := by
  simp [aiGenerate, hm, h]

/-- C5 witness: an empty account requesting gpt-4 is rejected without a
provider call. -/
theorem C5_admission_check_witness :
    aiGenerate user0 0 "gpt-4" (ProviderOutcome.success 100) 5 =
      { status := GenStatus.insufficientCredits
        providerCalls := 0
        user := user0
        createdTxs := []
        logStatus := none } :=
  C5_admission_check user0 0 "gpt-4" (ProviderOutcome.success 100) 5 (by decide)
    user0_lt_required

/-- C6 counterexample: a concrete admitted request whose provider call
fails creates no transaction at all (only the AI log is marked failed), so
no `failed` transaction with zero credit impact exists; the balance is
unchanged. -/
theorem C6_no_failed_transaction_counterexample :
    (aiGenerate user100 20 "gpt-4" (ProviderOutcome.failure "boom") 0).providerCalls = 1 ∧
    (aiGenerate user100 20 "gpt-4" (ProviderOutcome.failure "boom") 0).createdTxs = [] ∧
    (aiGenerate user100 20 "gpt-4" (ProviderOutcome.failure "boom") 0).user = user100 := by
  have e : aiGenerate user100 20 "gpt-4" (ProviderOutcome.failure "boom") 0 =
      { status := GenStatus.serverError
        providerCalls := 1
        user := user100
        createdTxs := []
        logStatus := some LogStatus.failed } := by
    have hm : isModelAvailable "gpt-4" = true := by decide
    simp [aiGenerate, user100_not_lt_required, hm]
  rw [e]
  exact ⟨rfl, rfl, rfl⟩

/-- C6 amended: when the provider call of an admitted request fails, the
route reaches its catch block: one provider call, the AI log marked failed,
no transaction created, the balance unchanged, and a 500 response. -/
theorem C6_provider_failure_no_debit (u : User) (promptLen : Nat)
    (model : String) (msg : String) (now : Nat)
    (hm : isModelAvailable model = true)
    (h : ¬ u.credits < calculateCredits (estimatedTokens promptLen) model) :
    aiGenerate u promptLen model (ProviderOutcome.failure msg) now =
      { status := GenStatus.serverError
        providerCalls := 1
        user := u
        createdTxs := []
        logStatus := some LogStatus.failed } := by
  simp [aiGenerate, hm, h]

/-- C6 witness: the amended behaviour at the concrete failing request. -/
theorem C6_provider_failure_no_debit_witness :
    aiGenerate user100 20 "gpt-4" (ProviderOutcome.failure "boom") 9 =
      { status := GenStatus.serverError
        providerCalls := 1
        user := user100
        createdTxs := []
        logStatus := some LogStatus.failed } :=
  C6_provider_failure_no_debit user100 20 "gpt-4" "boom" 9 (by decide)
    user100_not_lt_required

/-- C7: for every model in the pricing catalog and every token count, the
charged credits equal `ceil(max(1, tokens * costPerToken * 100))` and are
at least 1. -/
theorem C7_calculateCredits_formula (tokens : Nat) (model : String)
    (cfg : ModelConfig) (h : lookupModel model = some cfg) :
    calculateCredits tokens model =
      Int.ceil (max 1 ((tokens : ℚ) * cfg.costPerToken * 100)) ∧
    1 ≤ calculateCredits tokens model := by
  have e : calculateCredits tokens model =
      max 1 (Int.ceil ((tokens : ℚ) * cfg.costPerToken * 100)) := by
    simp [calculateCredits, h]
  constructor
  · rw [e, ceil_max_one]
  · rw [e]
    exact le_max_left 1 _

/-- C7 witness: the formula at 1000 tokens on gpt-4 (exact arithmetic gives
3 credits, the minimum clamp inactive). -/
theorem C7_calculateCredits_formula_witness :
    calculateCredits 1000 "gpt-4" =
      Int.ceil (max 1 (((1000 : ℕ) : ℚ) * (3 / 100000) * 100)) ∧
    1 ≤ calculateCredits 1000 "gpt-4" :=
  C7_calculateCredits_formula 1000 "gpt-4"
    { costPerToken := 3 / 100000, maxTokens := 8192 } lookupModel_gpt4

/-- C8 counterexample: refunding the same completed transaction twice fails
the second time, but with the status rejection (only completed transactions
can be refunded, the transaction now being `refunded`), not with the
already-refunded flag check, which is unreachable after the first refund. -/
theorem C8_second_refund_counterexample :
    refundRoute (some completedTx) user100 none "first" "rid1" 1 =
      Except.ok (completedTx.processRefund 10 "first" "rid1" 1,
        { user100 with credits := 0 }) ∧
    refundRoute (some (completedTx.processRefund 10 "first" "rid1" 1))
        { user100 with credits := 0 } none "second" "rid2" 2 =
      Except.error RefundError.notCompleted ∧
    RefundError.notCompleted ≠ RefundError.alreadyRefunded :=
  ⟨rfl, rfl, by decide⟩

/-- C8 amended: a successful refund sets the refund flag (previously false)
exactly once and moves the transaction to `refunded`; a second invocation
is rejected without mutating anything, but by the completed-status check
(the not-completed rejection), which fires before the already-refunded
flag is consulted. -/
theorem C8_second_refund_rejected (t t1 : Transaction) (u u1 : User)
    (a1 a2 : Option ℚ) (r1 r2 rid1 rid2 : String) (n1 n2 : Nat)
    (hv2 : a2.any (fun x => decide (x < 0)) = false)
    (hfirst : refundRoute (some t) u a1 r1 rid1 n1 = Except.ok (t1, u1)) :
    t.refund.isRefunded = false ∧
    t1.refund.isRefunded = true ∧
    t1.status = TxStatus.refunded ∧
    refundRoute (some t1) u1 a2 r2 rid2 n2 =
      Except.error RefundError.notCompleted := by
  rcases a1 with _ | a
  · by_cases hs : t.status = TxStatus.completed
    · by_cases hr : t.refund.isRefunded = true
      · exfalso
        simp [refundRoute, hs, hr] at hfirst
      · simp [refundRoute, hs, hr] at hfirst
        obtain ⟨ht1, hu1⟩ := hfirst
        refine ⟨by simpa using hr, ?_, ?_, ?_⟩
        · rw [← ht1]; rfl
        · rw [← ht1]; rfl
        · rw [← ht1]
          simp [refundRoute, hv2, Transaction.processRefund]
    · exfalso
      simp [refundRoute, hs] at hfirst
  · by_cases ha : a < 0
    · exfalso
      simp [refundRoute, ha] at hfirst
    · by_cases hs : t.status = TxStatus.completed
      · by_cases hr : t.refund.isRefunded = true
        · exfalso
          simp [refundRoute, ha, hs, hr] at hfirst
        · simp [refundRoute, ha, hs, hr] at hfirst
          obtain ⟨ht1, hu1⟩ := hfirst
          refine ⟨by simpa using hr, ?_, ?_, ?_⟩
          · rw [← ht1]; rfl
          · rw [← ht1]; rfl
          · rw [← ht1]
            simp [refundRoute, hv2, Transaction.processRefund]
      · exfalso
        simp [refundRoute, ha, hs] at hfirst

/-- C8 witness: the amended behaviour at a concrete completed purchase. -/
theorem C8_second_refund_rejected_witness :
    completedTx.refund.isRefunded = false ∧
    (completedTx.processRefund 10 "first" "rid1" 1).refund.isRefunded = true ∧
    (completedTx.processRefund 10 "first" "rid1" 1).status = TxStatus.refunded ∧
    refundRoute (some (completedTx.processRefund 10 "first" "rid1" 1))
        { user100 with credits := 0 } none "second" "rid2" 2 =
      Except.error RefundError.notCompleted :=
  C8_second_refund_rejected completedTx
    (completedTx.processRefund 10 "first" "rid1" 1) user100
    { user100 with credits := 0 } none none "first" "second" "rid1" "rid2" 1 2
    rfl rfl

/-- C9 counterexample: a refund of 20 against a completed transaction whose
monetary amount is 10 is accepted, processed and recorded, not rejected:
the route has no upper-bound check of the refund amount. -/
theorem C9_over_refund_counterexample :
    (completedTx.amount < 20) ∧
    refundRoute (some completedTx) user100 (some 20) "over" "rid9" 3 =
      Except.ok (completedTx.processRefund 20 "over" "rid9" 3,
        { user100 with credits := 0 }) ∧
    (completedTx.processRefund 20 "over" "rid9" 3).refund.refundAmount = 20 ∧
    (completedTx.processRefund 20 "over" "rid9" 3).status = TxStatus.refunded := by
  refine ⟨by norm_num [completedTx], rfl, ?_, rfl⟩
  show (if (20 : ℚ) = 0 then completedTx.amount else 20) = 20
  norm_num

/-- C9 amended: for a completed, not-yet-refunded transaction, any
nonnegative requested refund amount is accepted — the route validates only
`amount >= 0` and never compares it against the transaction's monetary
amount — recording `amount || transaction.amount` and applying the guarded
credit clawback. -/
theorem C9_refund_no_upper_bound (t : Transaction) (u : User) (a : ℚ)
    (r rid : String) (n : Nat)
    (hs : t.status = TxStatus.completed)
    (hr : t.refund.isRefunded = false) (ha : 0 ≤ a) :
    refundRoute (some t) u (some a) r rid n =
      Except.ok
        (t.processRefund (if a = 0 then t.amount else a) r rid n,
         if 0 < t.credits ∧ t.credits ≤ u.credits then
           { u with credits := u.credits - t.credits }
         else u) := by
  simp [refundRoute, hs, hr, not_lt.mpr ha]

/-- C9 witness: the amended acceptance at the concrete over-large refund. -/
theorem C9_refund_no_upper_bound_witness :
    refundRoute (some completedTx) user100 (some 20) "over" "rid9" 3 =
      Except.ok
        (completedTx.processRefund
          (if (20 : ℚ) = 0 then completedTx.amount else 20) "over" "rid9" 3,
         if 0 < completedTx.credits ∧ completedTx.credits ≤ user100.credits then
           { user100 with credits := user100.credits - completedTx.credits }
         else user100) :=
  C9_refund_no_upper_bound completedTx user100 20 "over" "rid9" 3 rfl rfl
    (by decide)

/-- With no own catalog key and a name that is no `Object.prototype`
property, the JavaScript lookup yields `undefined`. -/
theorem jsModelsLookup_absent (models : List (String × ModelConfig))
    (model : String)
    (h1 : models.find? (fun m => m.1 == model) = none)
    (h2 : objectPrototypeProps.contains model = false) :
    jsModelsLookup models model = JsLookup.absent := by
  have h2m : model ∉ objectPrototypeProps := by simpa using h2
  simp [jsModelsLookup, h1, h2m]

/-- On the catalogued name gpt-4 the prototype-chain pricing agrees with
the exact-own-key embedding used by the route-level theorems. -/
theorem calculateCreditsJS_agrees_gpt4 (tokens : Nat) :
    calculateCreditsJS tokens "gpt-4" = some (calculateCredits tokens "gpt-4") := rfl

/-- On the catalogued name gpt-3.5-turbo the prototype-chain pricing agrees
with the exact-own-key embedding. -/
theorem calculateCreditsJS_agrees_gpt35 (tokens : Nat) :
    calculateCreditsJS tokens "gpt-3.5-turbo" =
      some (calculateCredits tokens "gpt-3.5-turbo") := rfl

/-- On the catalogued name claude-3-sonnet the prototype-chain pricing
agrees with the exact-own-key embedding. -/
theorem calculateCreditsJS_agrees_claude (tokens : Nat) :
    calculateCreditsJS tokens "claude-3-sonnet" =
      some (calculateCredits tokens "claude-3-sonnet") := rfl

/-- C10 counterexample: the name toString is an own key of no provider
catalog, yet the JavaScript prototype-chain lookup is truthy there, so
`getProviderForModel` returns openai and `calculateCredits` multiplies
`tokens` by the `undefined` `costPerToken` of the inherited property,
returning `NaN` (modelled `none`) — not 1. -/
theorem C10_prototype_name_counterexample :
    (AI_PROVIDERS.any (fun p =>
      (p.2.find? (fun m => m.1 == "toString")).isSome)) = false ∧
    getProviderForModelJS "toString" = some "openai" ∧
    calculateCreditsJS 5 "toString" = none ∧
    (none : Option Int) ≠ some 1 := by
  decide

/-- C10 amended: for every token count and every model name that is
neither an own key of a provider catalog nor a property name inherited
from `Object.prototype`, the pricing function returns exactly 1 credit;
at inherited names such as toString it instead returns `NaN`. -/
theorem C10_unknown_model_one_credit (tokens : Nat) (model : String)
    (h1 : isModelAvailable model = false)
    (h2 : objectPrototypeProps.contains model = false) :
    calculateCreditsJS tokens model = some 1 := by
  have hnone : AI_PROVIDERS.find?
      (fun q => (q.2.find? (fun m => m.1 == model)).isSome) = none := by
    cases hfind : AI_PROVIDERS.find?
        (fun q => (q.2.find? (fun m => m.1 == model)).isSome) with
    | none => rfl
    | some q =>
      exfalso
      unfold isModelAvailable getProviderForModel at h1
      rw [hfind] at h1
      simp at h1
  have hown : ∀ p ∈ AI_PROVIDERS, p.2.find? (fun m => m.1 == model) = none := by
    intro p hp
    have hq := List.find?_eq_none.mp hnone p hp
    exact Option.not_isSome_iff_eq_none.mp (by simpa using hq)
  have hjs : AI_PROVIDERS.find? (fun p => (jsModelsLookup p.2 model).truthy) = none := by
    rw [List.find?_eq_none]
    intro p hp
    rw [jsModelsLookup_absent p.2 model (hown p hp) h2]
    simp [JsLookup.truthy]
  unfold calculateCreditsJS getProviderForModelJS
  rw [hjs]
  rfl

/-- C10 witness: an uncatalogued, non-inherited model name at a large token
count is billed exactly 1 credit. -/
theorem C10_unknown_model_one_credit_witness :
    calculateCreditsJS 987654 "llama-2" = some 1 :=
  C10_unknown_model_one_credit 987654 "llama-2" (by decide) (by decide)

end Billing
